import Mathlib

/-!
Verification development for the psst audio capturer
(src/psst-core/src/audio_capturer.rs).

The Rust module is a background capture/download orchestrator.  We give a
shallow embedding of its data model and control logic:

* `CaptureItem`, `PlaybackConfig`, `CapturerState`, `CapturerCommand`,
  `CapturerEvent` mirror the Rust types of the same names.
* The collaborator handles (`SessionService`, `CdnHandle`, `CacheHandle`)
  are opaque, clone-cheap handles with no control-flow effect; they are
  embedded as fieldless structures.
* The unbounded crossbeam channel is modelled by the ordered list of
  events a thread sends on it; a send can fail, in which case the Rust
  code panics via `expect`.  Panics (from `expect` and from `unwrap` on
  file creation and stream copy) are modelled by `Except Panic`.
* The body of `CaptureItem::load` consists entirely of calls into
  external collaborators (`load_audio_path`, `load_audio_key`,
  `AudioFile::open`, `raw_source`); its outcome is therefore a parameter,
  a `LoadOracle` giving the Item Loader result for an item and a
  configuration snapshot.
* `thread::spawn` is modelled by recording a `SpawnedTask` value holding
  exactly the data the Rust closure captures by clone/move: the item, the
  configuration clone and the destination directory.  `runTask` is the
  embedding of the closure body and runs on that record alone.
* `PathBuf::join` of the destination directory with a relative file name
  is embedded as string concatenation with a "/" separator.
-/

namespace Psst

/-- Opaque, globally unique item identifier (Rust: `ItemId`). -/
abbrev ItemId := Nat

/-- Rust `CaptureItem`: identifier plus display metadata used only for
naming the output artifact.  `name` and `artist` are `Arc<str>` in Rust;
reference counting is a sharing optimisation with no observable effect,
so they are plain strings here. -/
structure CaptureItem where
  item_id : ItemId
  name : String
  artist : String
deriving DecidableEq

/-- Rust `PlaybackConfig` (from `audio_player`): opaque configuration
snapshot consumed by the Item Loader.  Only its identity matters to the
capturer, so it is embedded as a wrapped number. -/
structure PlaybackConfig where
  value : Nat
deriving DecidableEq

/-- Opaque session handle (Rust `SessionService`); clone-cheap, no
control-flow effect inside the capturer. -/
structure SessionService where
deriving DecidableEq

/-- Opaque CDN handle (Rust `CdnHandle`). -/
structure CdnHandle where
deriving DecidableEq

/-- Opaque cache handle (Rust `CacheHandle`). -/
structure CacheHandle where
deriving DecidableEq

/-- Rust `crate::error::Error`, abstracted to its display message, which
is all the capturer uses (it is formatted into a log line). -/
structure Error where
  message : String
deriving DecidableEq

/-- Rust `LoadedCaptureItem`: the resolved readable byte stream
(`RawFileSource`), embedded as the list of bytes it yields. -/
structure LoadedCaptureItem where
  source : List Nat
deriving DecidableEq

/-- Rust `CapturerState`: `Idle`, `Downloading { item }`, or `Invalid`. -/
inductive CapturerState where
  | idle
  | downloading (item : CaptureItem)
  | invalid
deriving DecidableEq

/-- Rust `CapturerCommand`. -/
inductive CapturerCommand where
  | download (item : CaptureItem)
  | configure (config : PlaybackConfig)
deriving DecidableEq

/-- Rust `CapturerEvent`. -/
inductive CapturerEvent where
  | command (cmd : CapturerCommand)
  | downloading (item : CaptureItem)
  | downloaded (item : CaptureItem)
deriving DecidableEq

/-- A panic raised by `expect` or `unwrap` in the Rust module, tagged by
the program point that raised it. -/
inductive Panic where
  | sendDownloadingFailed
  | sendDownloadedFailed
  | fileCreateFailed
  | streamCopyFailed
deriving DecidableEq

/-- The data the closure passed to `thread::spawn` inside
`Capturer::download` captures by clone/move: the item, the clone of the
current configuration, and the clone of the destination directory.  The
collaborator handles are also cloned into the closure but are opaque. -/
structure SpawnedTask where
  item : CaptureItem
  config : PlaybackConfig
  destination_dir : String
deriving DecidableEq

/-- An observable action of the control thread, in program order: sending
an event on the shared channel, or spawning a background task. -/
inductive Action where
  | sendEvent (e : CapturerEvent)
  | spawn (t : SpawnedTask)
deriving DecidableEq

/-- Outcome of `CaptureItem::load` as a function of the item and the
configuration snapshot the task captured.  The body of `load` is entirely
calls into external collaborators (session, cache, CDN), so it is a
parameter of the model: the Item Loader contract of the specification. -/
abbrev LoadOracle := CaptureItem → PlaybackConfig → Except Error LoadedCaptureItem

/-- Environment responses for the fallible operations of one background
task: whether `File::create` succeeds, whether `io::copy` succeeds, and
whether the channel send succeeds. -/
structure TaskEnv where
  createOk : Bool
  copyOk : Bool
  sendOk : Bool
deriving DecidableEq

/-- Observable outcome of one background task that ran to completion
without panicking: the log lines it emitted, the destination write it
performed (path and bytes), and the events it sent on the channel. -/
structure TaskResult where
  logs : List String
  written : Option (String × List Nat)
  sent : List CapturerEvent
deriving DecidableEq

/-- The destination artifact path:
`destination_dir.join(format!("{} - {}.ogg", item.artist, item.name))`. -/
def destinationPath (destination_dir : String) (item : CaptureItem) : String :=
  destination_dir ++ "/" ++ (item.artist ++ " - " ++ item.name ++ ".ogg")

/-- The body of the closure spawned by `Capturer::download`:
load the item; on success create the destination file and copy the
stream into it (both `unwrap`, so a failure panics the task); on load
failure log and skip; finally send `Downloaded { item }` on the channel
(`expect`, so a send failure panics the task). -/
def runTask (loader : LoadOracle) (t : SpawnedTask) (env : TaskEnv) :
    Except Panic TaskResult :=
  match loader t.item t.config with
  | Except.ok loaded =>
      if env.createOk then
        if env.copyOk then
          if env.sendOk then
            Except.ok
              { logs := []
                written := some (destinationPath t.destination_dir t.item, loaded.source)
                sent := [CapturerEvent.downloaded t.item] }
          else Except.error Panic.sendDownloadedFailed
        else Except.error Panic.streamCopyFailed
      else Except.error Panic.fileCreateFailed
  | Except.error err =>
      if env.sendOk then
        Except.ok
          { logs := ["skipping, error while loading: " ++ err.message]
            written := none
            sent := [CapturerEvent.downloaded t.item] }
      else Except.error Panic.sendDownloadedFailed

/-- Rust `Capturer`: state, collaborator handles, configuration and the
destination directory.  The channel endpoints are not stored; the channel
is modelled by the action traces the operations return. -/
structure Capturer where
  state : CapturerState
  session : SessionService
  cdn : CdnHandle
  cache : CacheHandle
  config : PlaybackConfig
  destination_dir : String

/-- `Capturer::new`: fresh capturer in the `Idle` state.  No I/O. -/
def Capturer.new (session : SessionService) (cdn : CdnHandle) (cache : CacheHandle)
    (config : PlaybackConfig) (destination_dir : String) : Capturer :=
  { state := CapturerState.idle, session, cdn, cache, config, destination_dir }

/-- `Capturer::download`: send `Downloading { item }` on the channel
(`expect`: a failed send panics before any state change), set the state
to `Downloading { item }`, then spawn the background task with clones of
the configuration and destination directory.  Returns the updated
capturer together with the list of control-thread actions in program
order. -/
def Capturer.download (c : Capturer) (item : CaptureItem) (sendOk : Bool) :
    Except Panic (Capturer × List Action) :=
  if sendOk then
    Except.ok
      ({ c with state := CapturerState.downloading item },
        [Action.sendEvent (CapturerEvent.downloading item),
         Action.spawn
           { item := item, config := c.config, destination_dir := c.destination_dir }])
  else Except.error Panic.sendDownloadingFailed

/-- `Capturer::handle_downloaded`: the body is empty in the source. -/
def Capturer.handle_downloaded (c : Capturer) (_item : CaptureItem) : Capturer :=
  c

/-- `Capturer::configure`: replace the stored configuration. -/
def Capturer.configure (c : Capturer) (config : PlaybackConfig) : Capturer :=
  { c with config := config }

/-- `Capturer::handle_command`. -/
def Capturer.handle_command (c : Capturer) (cmd : CapturerCommand) (sendOk : Bool) :
    Except Panic (Capturer × List Action) :=
  match cmd with
  | CapturerCommand.download item => c.download item sendOk
  | CapturerCommand.configure config => Except.ok (c.configure config, [])

/-- `Capturer::handle`: the sole state-mutating entry point. -/
def Capturer.handle (c : Capturer) (event : CapturerEvent) (sendOk : Bool) :
    Except Panic (Capturer × List Action) :=
  match event with
  | CapturerEvent.command cmd => c.handle_command cmd sendOk
  | CapturerEvent.downloaded item => Except.ok (c.handle_downloaded item, [])
  | CapturerEvent.downloading _ => Except.ok (c, [])

/-- Process a sequence of events on the control thread, each with its
channel-send outcome; a panic stops processing. -/
def Capturer.handleSeq : Capturer → List (CapturerEvent × Bool) → Except Panic Capturer
  | c, [] => Except.ok c
  | c, (e, b) :: rest =>
      match c.handle e b with
      | Except.ok (c', _) => Capturer.handleSeq c' rest
      | Except.error p => Except.error p

/-- The events an action contributes to the channel: a direct send
contributes its event; a spawn contributes whatever the task sends
(nothing if the task panics). -/
def actionEvents (loader : LoadOracle) (env : TaskEnv) : Action → List CapturerEvent
  | Action.sendEvent e => [e]
  | Action.spawn t =>
      match runTask loader t env with
      | Except.ok r => r.sent
      | Except.error _ => []

/-- All events sent on the channel by a list of actions, in order. -/
def sentOnChannel (loader : LoadOracle) (env : TaskEnv) (acts : List Action) :
    List CapturerEvent :=
  acts.foldr (fun a acc => actionEvents loader env a ++ acc) []

/-- The channel trace of a single `Download` command handled to the
completion of its spawned task.  The control thread performs its send
strictly before the spawn, and the spawned task performs its own sends
after it is spawned, so for a single download the channel receives the
control-thread send first and the task sends after it. -/
def singleDownloadChannelTrace (c : Capturer) (item : CaptureItem)
    (loader : LoadOracle) (env : TaskEnv) : List CapturerEvent :=
  match c.handle (CapturerEvent.command (CapturerCommand.download item)) true with
  | Except.ok (_, acts) => sentOnChannel loader env acts
  | Except.error _ => []

/-! Sample concrete values, used by witnesses and counterexamples. -/

/-- A sample capture item. -/
def sampleItem : CaptureItem :=
  { item_id := 0, name := "Track", artist := "Artist" }

/-- A second, distinct sample capture item. -/
def sampleItem2 : CaptureItem :=
  { item_id := 1, name := "Other", artist := "Band" }

/-- A sample configuration. -/
def sampleConfig : PlaybackConfig :=
  { value := 160 }

/-- A second sample configuration. -/
def sampleConfig2 : PlaybackConfig :=
  { value := 320 }

/-- A freshly constructed sample capturer. -/
def sampleCapturer : Capturer :=
  Capturer.new {} {} {} sampleConfig "/music"

/-- A sample capturer with a download in flight. -/
def downloadingCapturer : Capturer :=
  { sampleCapturer with state := CapturerState.downloading sampleItem }

/-- Sample stream contents. -/
def sampleBytes : List Nat :=
  [1, 2, 3, 4, 5, 6, 7, 8, 9, 10]

/-- A loader for which every resolution succeeds with `sampleBytes`. -/
def okLoader : LoadOracle :=
  fun _ _ => Except.ok { source := sampleBytes }

/-- A loader for which every resolution fails. -/
def failLoader : LoadOracle :=
  fun _ _ => Except.error { message := "not found" }

/-- A task environment in which every fallible operation succeeds. -/
def allOkEnv : TaskEnv :=
  { createOk := true, copyOk := true, sendOk := true }

/-- The task spawned by the sample capturer for the sample item. -/
def sampleTask : SpawnedTask :=
  { item := sampleItem, config := sampleConfig, destination_dir := "/music" }

/-! Claim C1.  The claim states that handling a `Downloaded` event for the
completing item transitions the capturer back to `Idle`.  In the source,
`Capturer::handle_downloaded` has an empty body, so the state stays
`Downloading { item }`. -/

/-- C1 counterexample: a capturer whose state is `Downloading sampleItem`
handles `Downloaded sampleItem` (the completing item) and its state is
still `Downloading sampleItem`, not `Idle`. -/
theorem c1_counterexample :
    downloadingCapturer.handle (CapturerEvent.downloaded sampleItem) true =
      Except.ok (downloadingCapturer, []) ∧
    downloadingCapturer.state ≠ CapturerState.idle :=
  ⟨rfl, by decide⟩

/-- C1 amended: handling a `Downloaded` event leaves the capturer
unchanged (`handle_downloaded` is a no-op); in particular a capturer in
`Downloading { item }` stays there rather than returning to `Idle`. -/
theorem c1_handle_downloaded_noop (c : Capturer) (item : CaptureItem) (b : Bool) :
    c.handle (CapturerEvent.downloaded item) b = Except.ok (c, []) :=
  rfl

/-! Claim C3.  The claim states that a failed channel send transitions the
capturer to the terminal `Invalid` state.  In the source both sends use
`expect`, which panics; no code path assigns `Invalid`. -/

/-- C3 counterexample: when the `Downloading` send fails, `download`
panics (the `expect` fires); no updated capturer is produced at all, so
in particular no transition to `Invalid` happens. -/
theorem c3_counterexample :
    sampleCapturer.download sampleItem false =
      Except.error Panic.sendDownloadingFailed ∧
    (sampleCapturer.download sampleItem false).isOk = false :=
  ⟨rfl, rfl⟩

/-- C3 amended: a failed channel send panics the sending thread via
`expect` (fatal to the capturer), rather than transitioning to
`Invalid`: `download` panics before any state change when its send
fails, and a task whose final send fails panics as well. -/
theorem c3_send_failure_panics (c : Capturer) (item : CaptureItem)
    (t : SpawnedTask) (e : Error) :
    c.download item false = Except.error Panic.sendDownloadingFailed ∧
    runTask (fun _ _ => Except.error e) t
        { createOk := true, copyOk := true, sendOk := false } =
      Except.error Panic.sendDownloadedFailed :=
  ⟨rfl, rfl⟩

/-! Claim C5.  A resolution error from the Item Loader is logged, the
download is abandoned, and the task still sends `Downloaded { item }`
without panicking. -/

/-- C5: when the loader resolves the task item to an error, the task
completes without a panic, logs the error, writes nothing, and still
sends `Downloaded` for that item on the channel. -/
theorem c5_load_error_still_downloaded (loader : LoadOracle) (t : SpawnedTask)
    (env : TaskEnv) (e : Error) (hload : loader t.item t.config = Except.error e)
    (hsend : env.sendOk = true) :
    runTask loader t env =
      Except.ok
        { logs := ["skipping, error while loading: " ++ e.message]
          written := none
          sent := [CapturerEvent.downloaded t.item] } := by
  unfold runTask
  rw [hload, hsend]
  simp

/-- C5 witness: the failing sample loader with an all-ok environment. -/
theorem c5_witness :
    runTask failLoader sampleTask allOkEnv =
      Except.ok
        { logs := ["skipping, error while loading: " ++ "not found"]
          written := none
          sent := [CapturerEvent.downloaded sampleTask.item] } :=
  c5_load_error_still_downloaded failLoader sampleTask allOkEnv
    { message := "not found" } rfl rfl

/-! Claim C6.  A second `Download` while one is in flight spawns a second
task and overwrites the tracked state. -/

/-- C6: a capturer already in `Downloading a` that handles
`Download { b }` spawns a new task for `b` and its tracked state becomes
exactly `Downloading b` — the single-item state no longer records `a`,
so at most one in-flight download is ever reflected. -/
theorem c6_second_download_overwrites (c : Capturer) (a b : CaptureItem)
    (h : c.state = CapturerState.downloading a) :
    c.handle (CapturerEvent.command (CapturerCommand.download b)) true =
      Except.ok ({ c with state := CapturerState.downloading b },
        [Action.sendEvent (CapturerEvent.downloading b),
         Action.spawn
           { item := b, config := c.config, destination_dir := c.destination_dir }]) :=
  rfl

/-- C6 witness: the sample downloading capturer receiving a second
download command for a distinct item. -/
theorem c6_witness :
    downloadingCapturer.handle
        (CapturerEvent.command (CapturerCommand.download sampleItem2)) true =
      Except.ok ({ downloadingCapturer with state := CapturerState.downloading sampleItem2 },
        [Action.sendEvent (CapturerEvent.downloading sampleItem2),
         Action.spawn
           { item := sampleItem2, config := downloadingCapturer.config,
             destination_dir := downloadingCapturer.destination_dir }]) :=
  c6_second_download_overwrites downloadingCapturer sampleItem sampleItem2 rfl

/-! Claim C2.  The claim states that `Downloaded { item }` is sent
regardless of whether the load or the write fails.  In the source the
load-failure branch logs and still sends, but `File::create` and
`io::copy` are followed by `unwrap`: a write failure panics the task
before the send is reached. -/

/-- C2 counterexample: with a successful load but a failing
`File::create`, the task panics and no `Downloaded` event is sent. -/
theorem c2_counterexample :
    runTask okLoader sampleTask { createOk := false, copyOk := true, sendOk := true } =
      Except.error Panic.fileCreateFailed ∧
    (runTask okLoader sampleTask
        { createOk := false, copyOk := true, sendOk := true }).isOk = false :=
  ⟨rfl, rfl⟩

/-- C2 amended: `Downloaded { item }` is sent regardless of whether the
load fails (a load failure is only logged); but when the destination
write succeeds — a failing `File::create` or `io::copy` instead panics
the task via `unwrap` and no `Downloaded` event is sent. -/
theorem c2_downloaded_sent_unless_write_panics (loader : LoadOracle)
    (t : SpawnedTask) (env : TaskEnv) (hc : env.createOk = true)
    (hp : env.copyOk = true) (hs : env.sendOk = true) :
    Except.map TaskResult.sent (runTask loader t env) =
      Except.ok [CapturerEvent.downloaded t.item] := by
  cases hl : loader t.item t.config <;>
    simp [runTask, hl, hc, hp, hs, Except.map]

/-- C2 witness: a failing loader with an all-ok environment still yields
exactly one `Downloaded` event. -/
theorem c2_witness :
    Except.map TaskResult.sent (runTask failLoader sampleTask allOkEnv) =
      Except.ok [CapturerEvent.downloaded sampleTask.item] :=
  c2_downloaded_sent_unless_write_panics failLoader sampleTask allOkEnv rfl rfl rfl

/-! Claim C4.  In `Capturer::download` the `Downloading` send is the
first action, strictly before the spawn; the spawned task sends
`Downloaded` only after it starts, so on the channel `Downloading`
precedes the `Downloaded` of the same download. -/

/-- C4: handling a `Download` command performs the `Downloading` send
strictly before the spawn (the action list is exactly send-then-spawn),
and consequently the channel trace of a single download is `Downloading`
first, followed by at most the `Downloaded` of the spawned task. -/
theorem c4_downloading_before_spawn (c : Capturer) (item : CaptureItem)
    (loader : LoadOracle) (env : TaskEnv) :
    c.handle (CapturerEvent.command (CapturerCommand.download item)) true =
      Except.ok ({ c with state := CapturerState.downloading item },
        [Action.sendEvent (CapturerEvent.downloading item),
         Action.spawn
           { item := item, config := c.config, destination_dir := c.destination_dir }]) ∧
    (singleDownloadChannelTrace c item loader env =
        [CapturerEvent.downloading item] ∨
      singleDownloadChannelTrace c item loader env =
        [CapturerEvent.downloading item, CapturerEvent.downloaded item]) := by
  refine ⟨rfl, ?_⟩
  rcases env with ⟨cOk, pOk, sOk⟩
  cases hl : loader item c.config <;> cases cOk <;> cases pOk <;> cases sOk <;>
    simp [singleDownloadChannelTrace, sentOnChannel, actionEvents, runTask,
      Capturer.handle, Capturer.handle_command, Capturer.download, hl]

/-! Claim C7.  `Configure` only replaces the stored configuration, and a
download captures a clone of the configuration at spawn time. -/

/-- C7: configuring replaces only the stored configuration (state and
destination unchanged); a download started afterwards spawns a task
carrying exactly that configuration; and a further `Configure` issued
after the download again replaces only the stored configuration — only a
download started after it spawns a task carrying the new configuration,
while the earlier spawned task record keeps its captured clone. -/
theorem c7_configure_replaces_and_task_captures (c : Capturer)
    (cfg cfg2 : PlaybackConfig) (item : CaptureItem) :
    ((c.configure cfg).state = c.state ∧
      (c.configure cfg).config = cfg ∧
      (c.configure cfg).destination_dir = c.destination_dir) ∧
    ((c.configure cfg).download item true =
      Except.ok ({ c.configure cfg with state := CapturerState.downloading item },
        [Action.sendEvent (CapturerEvent.downloading item),
         Action.spawn
           { item := item, config := cfg, destination_dir := c.destination_dir }])) ∧
    (({ c.configure cfg with state := CapturerState.downloading item }).configure
          cfg2).download item true =
      Except.ok
        ({ c with state := CapturerState.downloading item, config := cfg2 },
          [Action.sendEvent (CapturerEvent.downloading item),
           Action.spawn
             { item := item, config := cfg2, destination_dir := c.destination_dir }]) :=
  ⟨⟨rfl, rfl, rfl⟩, rfl, rfl⟩

/-! Claim C8.  A sequence of `Configure` commands with no intervening
`Download` leaves the configuration equal to the last one applied. -/

/-- Handling a list of `Configure` commands is the left fold of
`configure` over the configurations. -/
theorem handleSeq_configure_eq_foldl (c : Capturer) (cfgs : List PlaybackConfig) :
    Capturer.handleSeq c
        (cfgs.map fun f => (CapturerEvent.command (CapturerCommand.configure f), true)) =
      Except.ok (cfgs.foldl Capturer.configure c) := by
  induction cfgs generalizing c with
  | nil => rfl
  | cons f rest ih =>
      simpa [Capturer.handleSeq, Capturer.handle, Capturer.handle_command]
        using ih (c.configure f)

/-- The configuration after folding `configure` over a list ending in
`cfg` is `cfg`. -/
theorem foldl_configure_config (cfgs : List PlaybackConfig) :
    ∀ (c : Capturer) (cfg : PlaybackConfig), cfgs.getLast? = some cfg →
      (cfgs.foldl Capturer.configure c).config = cfg := by
  induction cfgs with
  | nil => intro c cfg h; simp at h
  | cons f rest ih =>
      intro c cfg h
      cases rest with
      | nil =>
          simp at h
          subst h
          rfl
      | cons g rs =>
          rw [List.getLast?_cons_cons] at h
          exact ih (c.configure f) cfg h

/-- C8: handling `Configure c1, ..., Configure cn` (no intervening
download) succeeds and leaves the effective configuration equal to the
last `cn`; repeating a `Configure` is idempotent. -/
theorem c8_configure_sequence_last_wins (c : Capturer) (cfgs : List PlaybackConfig)
    (cfg : PlaybackConfig) (h : cfgs.getLast? = some cfg) :
    Except.map Capturer.config
        (Capturer.handleSeq c
          (cfgs.map fun f => (CapturerEvent.command (CapturerCommand.configure f), true))) =
      Except.ok cfg ∧
    (c.configure cfg).configure cfg = c.configure cfg := by
  refine ⟨?_, rfl⟩
  rw [handleSeq_configure_eq_foldl]
  simp [Except.map]
  exact foldl_configure_config cfgs c cfg h

/-- C8 witness: two successive configurations; the second one is the
effective configuration afterwards. -/
theorem c8_witness :
    Except.map Capturer.config
        (Capturer.handleSeq sampleCapturer
          ([sampleConfig, sampleConfig2].map fun f =>
            (CapturerEvent.command (CapturerCommand.configure f), true))) =
      Except.ok sampleConfig2 ∧
    (sampleCapturer.configure sampleConfig2).configure sampleConfig2 =
      sampleCapturer.configure sampleConfig2 :=
  c8_configure_sequence_last_wins sampleCapturer [sampleConfig, sampleConfig2]
    sampleConfig2 rfl

/-! Claim C9.  The destination artifact path is a pure function of the
destination directory and the item metadata. -/

/-- C9: the destination path is the file name built from the artist and
name of the item, joined to the destination directory; every write a
task performs goes to exactly that path, whatever the loader and
environment — in particular it does not depend on any other task. -/
theorem c9_destination_path_pure :
    (∀ (dir : String) (item : CaptureItem),
      destinationPath dir item =
        dir ++ "/" ++ (item.artist ++ " - " ++ item.name ++ ".ogg")) ∧
    (∀ (loader : LoadOracle) (t : SpawnedTask) (env : TaskEnv) (r : TaskResult)
      (p : String) (bs : List Nat),
      runTask loader t env = Except.ok r → r.written = some (p, bs) →
      p = destinationPath t.destination_dir t.item) := by
  refine ⟨fun _ _ => rfl, ?_⟩
  intro loader t env r p bs hrun hw
  rcases env with ⟨cOk, pOk, sOk⟩
  cases hl : loader t.item t.config <;> cases cOk <;> cases pOk <;> cases sOk <;>
      simp [runTask, hl] at hrun <;> subst hrun <;> simp_all

/-- C9 witness: with the all-successful sample run, the write goes to the
path computed from the sample metadata. -/
theorem c9_witness :
    "/music/Artist - Track.ogg" = destinationPath sampleTask.destination_dir sampleTask.item :=
  c9_destination_path_pure.2 okLoader sampleTask allOkEnv
    { logs := []
      written := some ("/music/Artist - Track.ogg", sampleBytes)
      sent := [CapturerEvent.downloaded sampleItem] }
    "/music/Artist - Track.ogg" sampleBytes rfl rfl

/-! Claim C10.  Starting from `Capturer::new`, the state is always `Idle`
or `Downloading { item }`; nothing assigns `Invalid`. -/

/-- Single step: `handle` either keeps the state or sets it to
`Downloading`; it never assigns `Invalid`. -/
theorem handle_state_step (c : Capturer) (e : CapturerEvent) (b : Bool)
    (c' : Capturer) (acts : List Action)
    (h : c.handle e b = Except.ok (c', acts)) :
    c'.state = c.state ∨ ∃ i, c'.state = CapturerState.downloading i := by
  cases e with
  | command cmd =>
      cases cmd with
      | download item =>
          cases b with
          | false =>
              simp [Capturer.handle, Capturer.handle_command, Capturer.download] at h
          | true =>
              simp [Capturer.handle, Capturer.handle_command, Capturer.download] at h
              right
              exact ⟨item, by rw [← h.1]⟩
      | configure config =>
          simp [Capturer.handle, Capturer.handle_command, Capturer.configure] at h
          left
          rw [← h.1]
  | downloading item =>
      simp [Capturer.handle] at h
      left
      rw [← h.1]
  | downloaded item =>
      simp [Capturer.handle, Capturer.handle_downloaded] at h
      left
      rw [← h.1]

/-- Processing any event sequence from a non-`Invalid` capturer never
reaches `Invalid`. -/
theorem handleSeq_state (inputs : List (CapturerEvent × Bool)) (c : Capturer)
    (c' : Capturer)
    (hc : c.state = CapturerState.idle ∨ ∃ i, c.state = CapturerState.downloading i)
    (h : Capturer.handleSeq c inputs = Except.ok c') :
    c'.state = CapturerState.idle ∨ ∃ i, c'.state = CapturerState.downloading i := by
  induction inputs generalizing c with
  | nil =>
      simp [Capturer.handleSeq] at h
      rw [← h]
      exact hc
  | cons p rest ih =>
      rcases p with ⟨e, b⟩
      cases hh : c.handle e b with
      | error pan => simp [Capturer.handleSeq, hh] at h
      | ok pr =>
          rcases pr with ⟨c1, acts⟩
          simp [Capturer.handleSeq, hh] at h
          refine ih c1 ?_ h
          rcases handle_state_step c e b c1 acts hh with hkeep | hdl
          · rw [hkeep]; exact hc
          · exact Or.inr hdl

/-- C10: `handle` never assigns the `Invalid` variant — a single step
either keeps the state or sets `Downloading` — and from a capturer built
by `new`, any processed event sequence ends with the state `Idle` or
`Downloading { item }`.  `Invalid` is unreachable. -/
theorem c10_invalid_unreachable :
    (∀ (c : Capturer) (e : CapturerEvent) (b : Bool) (c' : Capturer)
        (acts : List Action),
      c.handle e b = Except.ok (c', acts) →
      c'.state = c.state ∨ ∃ i, c'.state = CapturerState.downloading i) ∧
    (∀ (session : SessionService) (cdn : CdnHandle) (cache : CacheHandle)
        (config : PlaybackConfig) (dir : String)
        (inputs : List (CapturerEvent × Bool)) (c' : Capturer),
      Capturer.handleSeq (Capturer.new session cdn cache config dir) inputs =
          Except.ok c' →
      c'.state = CapturerState.idle ∨ ∃ i, c'.state = CapturerState.downloading i) :=
  ⟨handle_state_step,
   fun session cdn cache config dir inputs c' h =>
     handleSeq_state inputs (Capturer.new session cdn cache config dir) c'
       (Or.inl rfl) h⟩

/-- C10 witness: a concrete run — a download command followed by its
completion event — ends in a `Downloading` state, not `Invalid`. -/
theorem c10_witness :
    ({ sampleCapturer with state := CapturerState.downloading sampleItem }).state =
        CapturerState.idle ∨
    ∃ i, ({ sampleCapturer with state := CapturerState.downloading sampleItem }).state =
        CapturerState.downloading i :=
  c10_invalid_unreachable.2 {} {} {} sampleConfig "/music"
    [(CapturerEvent.command (CapturerCommand.download sampleItem), true),
     (CapturerEvent.downloaded sampleItem, true)] _ rfl

end Psst
